import Mathlib

/-!
# Verification of the real-time voice session engine

Shallow embedding of `src/websocket/llmServer.js`: the per-connection session
state machine that multiplexes streaming LLM generation against barge-in
cancellation, serializes history mutations through a turn queue, and
guarantees the freeze-prevention invariant (`isGenerating` always released).

The embedding follows the source file closely:
* `executeFunctionCall` — the tool dispatcher (lines 659–800);
* `generateWithAbort`   — the cancellable stream primitive (lines 589–626);
* `handleTranscript`    — the turn task (lines 392–549);
* `handleGreeting`      — the greeting task (lines 327–364);
* `Sys` / `step`        — the per-connection session with its message handlers
  (lines 200–263), turn queue (lines 301–312) and the greeting reified as a
  small-step machine so inbound frames can interleave with a running greeting.

Provider nondeterminism (which chunks arrive, whether the stream fails, when
the abort signal trips, when the socket closes, what the database returns) is
supplied as explicit environment data, universally quantified in the theorems.
-/

namespace LlmServer

/-- Role of a conversation turn (`role` field of a history entry). -/
inductive Role
  | user
  | model
deriving DecidableEq, Repr

/-- Result payload returned by `executeFunctionCall` and re-injected into the
conversation as a `functionResponse` part. Shapes mirror the object literals
returned by the source (lines 663–799). -/
inductive FnResult
  | menuResult (menu : String)
  | orderSuccess (orderId : String) (message : String)
  | reservationSuccess (reservationId : String) (message : String)
  | failure (error : String)
  | stub (status : String) (message : String)
  | unknownFn (error : String)
deriving DecidableEq, Repr

/-- A part of a conversation turn: plain text, a tool call emitted by the
model, or a tool result injected back (`functionResponse`). Arguments of a
tool call are modelled as a key/value list (the JS object `fnArgs`). -/
inductive Part
  | text (s : String)
  | functionCall (name : String) (args : List (String × String))
  | functionResponse (name : String) (response : FnResult)
deriving DecidableEq, Repr

/-- One `{ role, parts }` entry of `session.history`. -/
structure Turn where
  role : Role
  parts : List Part
deriving DecidableEq, Repr

/-- Outbound Retell-protocol frame, as built by `sendChunk` (lines 910–919). -/
structure Frame where
  responseId : Nat
  content : String
  contentComplete : Bool
  endCall : Bool
deriving DecidableEq, Repr

/-- Error thrown by the stream primitive or the provider. `abortError` models
an `Error` whose `name` field is `'AbortError'` (cancellation and timeout);
`providerError` models every other rejection. -/
inductive GenErr
  | abortError (msg : String)
  | providerError (msg : String)
deriving DecidableEq, Repr

/-- The `err.name` tag the catch blocks discriminate on (line 521/354). -/
def GenErr.errTag : GenErr → String
  | .abortError _ => "AbortError"
  | .providerError _ => "Error"

/-- A streaming chunk: a list of response parts (text and/or functionCall). -/
structure Chunk where
  parts : List Part
deriving DecidableEq, Repr

/-- Resolved result of a streaming call: the chunks the provider delivers,
an optional error thrown by the stream iteration after those chunks, and the
aggregated terminal response's parts (`turn.response.candidates[0].content.parts`). -/
structure StreamResult where
  chunks : List Chunk
  streamErr : Option GenErr
  terminalParts : List Part
deriving DecidableEq, Repr

/-- Decidable equality of call outcomes (used to derive decidability of the
session machinery). -/
instance {e a : Type} [DecidableEq e] [DecidableEq a] : DecidableEq (Except e a)
  | .ok x, .ok y =>
      if h : x = y then .isTrue (congrArg Except.ok h)
      else .isFalse (fun hh => h (Except.ok.inj hh))
  | .ok _, .error _ => .isFalse (fun hh => Except.noConfusion hh)
  | .error _, .ok _ => .isFalse (fun hh => Except.noConfusion hh)
  | .error x, .error y =>
      if h : x = y then .isTrue (congrArg Except.error h)
      else .isFalse (fun hh => h (Except.error.inj hh))

/-- Subset of the Supabase `stores` row that the session engine reads. -/
structure StoreData where
  id : String
  menu_cache : Option String
deriving DecidableEq, Repr

/-- JS property access `fnArgs.k` on the tool-call arguments object: a missing
key reads as `undefined`, which string interpolation renders as `"undefined"`. -/
def jget (args : List (String × String)) (k : String) : String :=
  match args.lookup k with
  | some v => v
  | none => "undefined"

-- ── Tool dispatcher (source lines 659–800) ───────────────────────────────────

/-- `executeFunctionCall(fnName, fnArgs, session)`. Database insert outcomes
are supplied by `dbResult`: `some id` models a successful insert returning the
new row id, `none` models the `{ error }` branch of the Supabase response.
The `get_menu` branch touches neither the database outcome nor any other
environment input — it reads only `session.storeData.menu_cache` (line 664). -/
def executeFunctionCall (fnName : String) (fnArgs : List (String × String))
    (storeData : StoreData) (dbResult : Option String) : FnResult :=
  if fnName == "get_menu" then
    .menuResult (storeData.menu_cache.getD "Menu information is currently unavailable.")
  else if fnName == "place_order" then
    match dbResult with
    | none =>
        .failure "We were unable to place your order right now. Please try again or call us directly."
    | some dataId =>
        .orderSuccess dataId
          ("Order confirmed! Your order ID is " ++ dataId ++ ". We will have it ready for you shortly.")
  else if fnName == "make_reservation" then
    match dbResult with
    | none =>
        .failure "We were unable to process your reservation right now. Please call us directly to book."
    | some dataId =>
        .reservationSuccess dataId
          ("Reservation confirmed for " ++ jget fnArgs "party_size" ++ " on " ++ jget fnArgs "date" ++
           " at " ++ jget fnArgs "time" ++ ". Your confirmation ID is " ++ dataId ++ ". See you then!")
  else if fnName == "check_order_status" then
    .stub "under_construction"
      ("Order status lookup is not yet available through this line. " ++
       "Please call our main number and a staff member will check your order for you.")
  else if fnName == "cancel_or_modify" then
    .stub "under_construction"
      ("Order changes and cancellations are not yet available through this line. " ++
       "Please call our main number and a staff member will assist you right away.")
  else if fnName == "transfer_to_human" then
    .stub "transferring"
      ("Of course! Let me transfer you to one of our staff members right now. " ++
       "Please hold for just a moment.")
  else
    .unknownFn ("Function \"" ++ fnName ++ "\" is not implemented.")

-- ── Timing and transport primitives ──────────────────────────────────────────

/-- `GEMINI_TIMEOUT_MS` (line 75). -/
def GEMINI_TIMEOUT_MS : Nat := 15000

/-- Whether the abort signal has tripped by step `s`. `abortAt = some a` means
`abort()` fires at step `a`; once tripped it stays tripped (monotone), matching
`AbortSignal.aborted`. -/
def tripped (abortAt : Option Nat) (s : Nat) : Bool :=
  match abortAt with
  | none => false
  | some a => decide (a ≤ s)

/-- Whether the socket is still OPEN at step `s` (`ws.readyState === ws.OPEN`);
once closed it stays closed. -/
def socketOpenAt (closeAt : Option Nat) (s : Nat) : Bool :=
  match closeAt with
  | none => true
  | some c => decide (s < c)

/-- `sendChunk` (lines 910–919): no-ops silently when the socket is not OPEN,
otherwise emits one frame with `end_call: false`. -/
def sendChunk (openNow : Bool) (responseId : Nat) (content : String)
    (contentComplete : Bool) : List Frame :=
  if openNow then
    [{ responseId := responseId, content := content,
       contentComplete := contentComplete, endCall := false }]
  else []

/-- `textFromChunk` (lines 887–892): join the text parts of a chunk. -/
def textFromChunk (c : Chunk) : String :=
  String.join (c.parts.filterMap fun p =>
    match p with
    | .text s => some s
    | _ => none)

-- ── Cancellable stream primitive (source lines 589–626) ──────────────────────

/-- What the provider does for one `model.generateContentStream` request:
delivers its first response at time `t`, rejects at time `t`, or never
responds. -/
inductive ProviderEvent
  | respondsAt (t : Nat) (r : StreamResult)
  | failsAt (t : Nat) (msg : String)
  | never
deriving Repr

/-- Time of the provider's first settlement, if any. -/
def firstEventTime : ProviderEvent → Option Nat
  | .respondsAt t _ => some t
  | .failsAt t _ => some t
  | .never => none

/-- The timeout rejection message (line 600). -/
def timeoutMessage (timeoutMs : Nat) : String :=
  "Gemini request timed out after " ++ toString timeoutMs ++ "ms (Gemini 요청 " ++
    toString timeoutMs ++ "ms 후 타임아웃)"

/-- `generateWithAbort(model, contents, signal, timeoutMs)`. The promise
settles once, with the first of three sources: the synchronous abort listener
(if the token trips at `abortAt` before both the timeout and the provider),
the safety-net timer at `timeoutMs`, or the provider's own settlement. The
token is pre-checked and the call fails fast when already aborted. -/
def generateWithAbort (preAborted : Bool) (abortAt : Option Nat)
    (provider : ProviderEvent) (timeoutMs : Nat) : Except GenErr StreamResult :=
  if preAborted then
    .error (.abortError "Aborted before Gemini call (Gemini 호출 전 이미 중단됨)")
  else
    let abortWins : Bool :=
      match abortAt, firstEventTime provider with
      | some a, some t => decide (a ≤ t) && decide (a ≤ timeoutMs)
      | some a, none => decide (a ≤ timeoutMs)
      | none, _ => false
    if abortWins then
      .error (.abortError "Aborted during Gemini call (Gemini 호출 중 중단됨)")
    else
      match provider with
      | .respondsAt t r =>
          if decide (t ≤ timeoutMs) then .ok r
          else .error (.abortError (timeoutMessage timeoutMs))
      | .failsAt t m =>
          if decide (t ≤ timeoutMs) then .error (.providerError m)
          else .error (.abortError (timeoutMessage timeoutMs))
      | .never => .error (.abortError (timeoutMessage timeoutMs))

-- ── Turn task (source lines 392–549) ─────────────────────────────────────────

/-- One entry of the inbound `transcript` array; `content` may be absent
(`lastUserTurn?.content?.trim() ?? ''`). -/
structure TranscriptEntry where
  role : String
  content : Option String
deriving DecidableEq, Repr

/-- JS `String#trim` — strip leading and trailing whitespace — modelled
structurally over the character list so that concrete terms evaluate inside
the kernel. -/
def jsTrim (s : String) : String :=
  String.mk (((s.data.dropWhile Char.isWhitespace).reverse.dropWhile
    Char.isWhitespace).reverse)

/-- `transcript.filter(t => t.role === 'user').at(-1)?.content?.trim() ?? ''`
(lines 397–398). -/
def lastUserText (transcript : List TranscriptEntry) : String :=
  match (transcript.filter fun t => t.role == "user").getLast? with
  | none => ""
  | some t =>
      match t.content with
      | none => ""
      | some c => jsTrim c

/-- Which control-flow exit a task took (ghost instrumentation; carries no
behaviour). -/
inductive ExitKind
  | emptyNudge
  | cleanText
  | cleanTool
  | cancelledCheck
  | caughtAbort
  | caughtProvider
deriving DecidableEq, Repr

/-- Observable result of one task: the frames it emitted, the history it left
behind, the final value of `session.isGenerating`, and the exit it took. -/
structure TurnResult where
  frames : List Frame
  history : List Turn
  isGenerating : Bool
  exit : ExitKind
deriving DecidableEq, Repr

/-- State of a `for await (const chunk of stream)` loop, plus the error the
iteration throws (if any) after the delivered chunks are exhausted. -/
structure LoopOut where
  step : Nat
  acc : String
  frames : List Frame
  err : Option GenErr
deriving DecidableEq, Repr

/-- The streaming loop (lines 430–437 / 493–500): before each chunk, break if
the signal is aborted; otherwise accumulate the chunk text and, when non-empty,
emit a partial frame. Breaking on abort also skips a pending stream error. -/
def chunkLoop (abortAt closeAt : Option Nat) (responseId : Nat) :
    List Chunk → Option GenErr → Nat → String → List Frame → LoopOut
  | [], streamErr, step, acc, frames =>
      { step := step, acc := acc, frames := frames, err := streamErr }
  | c :: rest, streamErr, step, acc, frames =>
      if tripped abortAt step then
        { step := step, acc := acc, frames := frames, err := none }
      else
        let t := textFromChunk c
        if t == "" then
          chunkLoop abortAt closeAt responseId rest streamErr (step + 1) acc frames
        else
          chunkLoop abortAt closeAt responseId rest streamErr (step + 1) (acc ++ t)
            (frames ++ sendChunk (socketOpenAt closeAt step) responseId t false)

/-- The environment a turn task runs against: when the abort signal trips,
when the socket closes, the two streaming call outcomes, and the database
insert outcome consumed by the tool dispatcher. -/
structure TurnEnv where
  abortAt : Option Nat
  closeAt : Option Nat
  gen1 : Except GenErr StreamResult
  dbResult : Option String
  gen2 : Except GenErr StreamResult
deriving Repr

/-- A `generateWithAbort` call as seen from `handleTranscript`: the primitive
pre-checks the signal and fails fast (line 592); otherwise the call resolves
to the environment-supplied outcome. -/
def genCall (abortAt : Option Nat) (step : Nat)
    (outcome : Except GenErr StreamResult) : Except GenErr StreamResult :=
  if tripped abortAt step then
    .error (.abortError "Aborted before Gemini call (Gemini 호출 전 이미 중단됨)")
  else outcome

/-- The catch block of `handleTranscript` (lines 516–533): always truncate
history to the checkpoint; an `AbortError` exits silently; any other error
emits the apology final frame if and only if the signal is not aborted and
the socket is still open. -/
def runCatch (abortAt closeAt : Option Nat) (responseId : Nat)
    (framesSoFar : List Frame) (hcur : List Turn) (checkpoint : Nat)
    (e : GenErr) (step : Nat) : TurnResult :=
  match e with
  | .abortError _ =>
      { frames := framesSoFar, history := hcur.take checkpoint,
        isGenerating := false, exit := .caughtAbort }
  | .providerError _ =>
      { frames := framesSoFar ++
          (if !tripped abortAt step && socketOpenAt closeAt step then
            [{ responseId := responseId,
               content := "I'm sorry, I had a little trouble. Could you please say that again?",
               contentComplete := true, endCall := false }]
          else []),
        history := hcur.take checkpoint,
        isGenerating := false, exit := .caughtProvider }

/-- `fnPart = turn1Parts.find(p => p.functionCall != null)` followed by the
destructuring of `fnPart.functionCall` (lines 456, 466). -/
def findFnCall : List Part → Option (String × List (String × String))
  | [] => none
  | .functionCall n a :: _ => some (n, a)
  | _ :: rest => findFnCall rest

/-- `handleTranscript(ws, session, transcript, responseId, signal)`
(lines 392–549), the two-phase turn task. Steps number the suspension points
so the monotone abort signal and socket state can be sampled at each check.
Every branch releases `isGenerating` (the `finally` at line 547; the empty
transcript path releases explicitly at line 403). -/
def handleTranscript (env : TurnEnv) (storeData : StoreData)
    (history0 : List Turn) (transcript : List TranscriptEntry)
    (responseId : Nat) : TurnResult :=
  let userText := lastUserText transcript
  if userText == "" then
    { frames := sendChunk (socketOpenAt env.closeAt 0) responseId
        "I'm listening. How can I help you today?" true,
      history := history0, isGenerating := false, exit := .emptyNudge }
  else
    let checkpoint := history0.length
    let h1 := history0 ++ [{ role := .user, parts := [.text userText] }]
    match genCall env.abortAt 0 env.gen1 with
    | .error e => runCatch env.abortAt env.closeAt responseId [] h1 checkpoint e 1
    | .ok r1 =>
      let L1 := chunkLoop env.abortAt env.closeAt responseId r1.chunks r1.streamErr 1 "" []
      match L1.err with
      | some e => runCatch env.abortAt env.closeAt responseId L1.frames h1 checkpoint e L1.step
      | none =>
        if tripped env.abortAt L1.step then
          { frames := L1.frames, history := h1.take checkpoint,
            isGenerating := false, exit := .cancelledCheck }
        else if tripped env.abortAt (L1.step + 1) then
          { frames := L1.frames, history := h1.take checkpoint,
            isGenerating := false, exit := .cancelledCheck }
        else
          match findFnCall r1.terminalParts with
          | none =>
            { frames := L1.frames ++
                sendChunk (socketOpenAt env.closeAt (L1.step + 2)) responseId "" true,
              history := h1 ++ [{ role := .model, parts := [.text L1.acc] }],
              isGenerating := false, exit := .cleanText }
          | some (fnName, fnArgs) =>
            let h2 := h1 ++ [{ role := .model, parts := [.functionCall fnName fnArgs] }]
            let fnResponse := executeFunctionCall fnName fnArgs storeData env.dbResult
            if tripped env.abortAt (L1.step + 2) then
              { frames := L1.frames, history := h2.take checkpoint,
                isGenerating := false, exit := .cancelledCheck }
            else
              let h3 := h2 ++ [{ role := .user, parts := [.functionResponse fnName fnResponse] }]
              match genCall env.abortAt (L1.step + 3) env.gen2 with
              | .error e =>
                  runCatch env.abortAt env.closeAt responseId L1.frames h3 checkpoint e (L1.step + 4)
              | .ok r2 =>
                let L2 := chunkLoop env.abortAt env.closeAt responseId r2.chunks r2.streamErr
                    (L1.step + 4) "" L1.frames
                match L2.err with
                | some e =>
                    runCatch env.abortAt env.closeAt responseId L2.frames h3 checkpoint e L2.step
                | none =>
                  if tripped env.abortAt L2.step then
                    { frames := L2.frames, history := h3.take checkpoint,
                      isGenerating := false, exit := .cancelledCheck }
                  else
                    { frames := L2.frames ++
                        sendChunk (socketOpenAt env.closeAt (L2.step + 1)) responseId "" true,
                      history := h3 ++ [{ role := .model, parts := [.text L2.acc] }],
                      isGenerating := false, exit := .cleanTool }

-- ── Greeting task (source lines 327–364) ─────────────────────────────────────

/-- The static fallback greeting (line 359). -/
def greetingFallbackText : String :=
  "Hello! I'm your voice assistant. How can I help you today?"

/-- The apology sent on a non-abort streaming error (line 531). -/
def apologyText : String :=
  "I'm sorry, I had a little trouble. Could you please say that again?"

/-- Environment for a greeting task: the abort/close schedules and the outcome
of its single streaming call. -/
structure GreetEnv where
  abortAt : Option Nat
  closeAt : Option Nat
  gen : Except GenErr StreamResult
deriving Repr

/-- `handleGreeting(ws, session)` (lines 327–364): a one-shot stream for
`response_id 0` that never touches `session.history`. An `AbortError` exits
silently; any other error sends the static fallback as a final frame guarded
only by the socket check inside `sendChunk` (no `signal.aborted` check on this
path); a clean stream ends with an empty final frame unless the signal
tripped. `isGenerating` is released on every exit (the `finally`, line 362). -/
def handleGreeting (env : GreetEnv) (history0 : List Turn) : TurnResult :=
  match genCall env.abortAt 0 env.gen with
  | .error (.abortError _) =>
      { frames := [], history := history0, isGenerating := false, exit := .caughtAbort }
  | .error (.providerError _) =>
      { frames := sendChunk (socketOpenAt env.closeAt 1) 0 greetingFallbackText true,
        history := history0, isGenerating := false, exit := .caughtProvider }
  | .ok r =>
    let L := chunkLoop env.abortAt env.closeAt 0 r.chunks r.streamErr 1 "" []
    match L.err with
    | some (.abortError _) =>
        { frames := L.frames, history := history0, isGenerating := false, exit := .caughtAbort }
    | some (.providerError _) =>
        { frames := L.frames ++ sendChunk (socketOpenAt env.closeAt L.step) 0 greetingFallbackText true,
          history := history0, isGenerating := false, exit := .caughtProvider }
    | none =>
      if tripped env.abortAt L.step then
        { frames := L.frames, history := history0, isGenerating := false, exit := .cancelledCheck }
      else
        { frames := L.frames ++ sendChunk (socketOpenAt env.closeAt L.step) 0 "" true,
          history := history0, isGenerating := false, exit := .cleanText }

-- ── Per-connection session (source lines 110–312) ────────────────────────────

/-- A deferred entry of `session.generationQueue`: the greeting (enqueued once
at connect, line 197) or a turn task closed over its controller id, transcript
and response id (lines 251–256). -/
inductive Pending
  | greeting (gen : Except GenErr StreamResult)
  | turn (cid : Nat) (responseId : Nat) (transcript : List TranscriptEntry) (env : TurnEnv)
deriving Repr

/-- Execution state of the queue's head task. The greeting is reified so that
inbound frames can interleave with it: `greetWaiting` is the suspension on its
`generateWithAbort` await, `greetStreaming` the chunk loop. Turn tasks run
atomically through `handleTranscript` (their interleavings are captured by
the universally quantified `TurnEnv`). -/
inductive Status
  | idle
  | greetWaiting (cid : Nat) (gen : Except GenErr StreamResult)
  | greetStreaming (cid : Nat) (pending : List Chunk) (streamErr : Option GenErr)
deriving DecidableEq, Repr

/-- The per-connection session object (lines 172–181), with controllers
modelled by identity (`Nat` ids): `controller` is `session.abortController`,
`aborted` the set of controllers whose `abort()` has been called, `nextId` a
fresh-id allocator, `out` the outbound frames sent so far. -/
structure Sys where
  store : StoreData
  history : List Turn
  isGenerating : Bool
  controller : Option Nat
  aborted : List Nat
  nextId : Nat
  queue : List Pending
  status : Status
  out : List Frame
deriving Repr

/-- Session state right after connect (lines 172–197): empty history, lock
released, no controller, and the greeting enqueued. -/
def initSys (store : StoreData) (greetGen : Except GenErr StreamResult) : Sys :=
  { store := store, history := [], isGenerating := false, controller := none,
    aborted := [], nextId := 0, queue := [.greeting greetGen], status := .idle, out := [] }

/-- The `update_only` branch of the message handler (lines 218–227): call
`abort()` on the current controller if and only if `isGenerating` is true,
the controller exists, and `turntaking === 'user_turn'`. Nothing else. -/
def handleUpdateOnly (s : Sys) (turntaking : Option String) : Sys :=
  match s.controller with
  | some cid =>
      if s.isGenerating && turntaking == some "user_turn" then
        { s with aborted := cid :: s.aborted }
      else s
  | none => s

/-- The `response_required` branch (lines 238–258): allocate a fresh
controller, overwrite `session.abortController`, enqueue a turn task closed
over the new controller's id. No `abort()` is invoked. -/
def handleResponseRequired (s : Sys) (responseId : Nat)
    (transcript : List TranscriptEntry) (env : TurnEnv) : Sys :=
  { s with controller := some s.nextId, nextId := s.nextId + 1,
           queue := s.queue ++ [.turn s.nextId responseId transcript env] }

/-- A turn task dequeued from the serializer (lines 251–256): the stale check
skips the task when a newer `response_required` replaced the controller;
otherwise `handleTranscript` runs. A controller already aborted before the
task starts makes the signal tripped from step 0 onward. -/
def runTurnTask (s : Sys) (cid responseId : Nat)
    (transcript : List TranscriptEntry) (env : TurnEnv) : Sys :=
  if s.controller == some cid then
    let env' := if s.aborted.contains cid then { env with abortAt := some 0 } else env
    let r := handleTranscript env' s.store s.history transcript responseId
    { s with history := r.history, isGenerating := r.isGenerating, out := s.out ++ r.frames }
  else s

/-- One scheduler step: advance the running greeting by one suspension point,
or start the queue's head task when idle. Greeting start (lines 328–330)
creates its controller, installs it as `session.abortController`, and sets
`isGenerating` before any await. -/
def tickStep (s : Sys) : Sys :=
  match s.status with
  | .greetWaiting cid gen =>
      if s.aborted.contains cid then
        { s with status := .idle, isGenerating := false }
      else
        match gen with
        | .error (.abortError _) => { s with status := .idle, isGenerating := false }
        | .error (.providerError _) =>
            { s with status := .idle, isGenerating := false,
                     out := s.out ++ [{ responseId := 0, content := greetingFallbackText,
                                        contentComplete := true, endCall := false }] }
        | .ok r => { s with status := .greetStreaming cid r.chunks r.streamErr }
  | .greetStreaming cid pending streamErr =>
      if s.aborted.contains cid then
        { s with status := .idle, isGenerating := false }
      else
        match pending with
        | c :: rest =>
            let t := textFromChunk c
            { s with status := .greetStreaming cid rest streamErr,
                     out := s.out ++ (if t == "" then [] else
                       [{ responseId := 0, content := t, contentComplete := false, endCall := false }]) }
        | [] =>
            match streamErr with
            | some (.abortError _) => { s with status := .idle, isGenerating := false }
            | some (.providerError _) =>
                { s with status := .idle, isGenerating := false,
                         out := s.out ++ [{ responseId := 0, content := greetingFallbackText,
                                            contentComplete := true, endCall := false }] }
            | none =>
                { s with status := .idle, isGenerating := false,
                         out := s.out ++ [{ responseId := 0, content := "",
                                            contentComplete := true, endCall := false }] }
  | .idle =>
      match s.queue with
      | [] => s
      | .greeting gen :: rest =>
          { s with queue := rest, status := .greetWaiting s.nextId gen,
                   controller := some s.nextId, nextId := s.nextId + 1, isGenerating := true }
      | .turn cid responseId transcript env :: rest =>
          runTurnTask { s with queue := rest } cid responseId transcript env

/-- A well-formed inbound frame (lines 210–262): a transcript push, a reply
request, or any other interaction type (ignored silently). -/
inductive Event
  | updateOnly (turntaking : Option String)
  | responseRequired (responseId : Nat) (transcript : List TranscriptEntry) (env : TurnEnv)
  | other
deriving Repr

/-- A scheduling command: deliver an inbound frame (the message handler runs
synchronously) or let the session's executor take one step. -/
inductive Cmd
  | deliver (e : Event)
  | tick
deriving Repr

/-- Apply one command. -/
def step (s : Sys) : Cmd → Sys
  | .deliver (.updateOnly tt) => handleUpdateOnly s tt
  | .deliver (.responseRequired rid tr env) => handleResponseRequired s rid tr env
  | .deliver .other => s
  | .tick => tickStep s

/-- Apply a command sequence in order. -/
def runCmds (s : Sys) : List Cmd → Sys
  | [] => s
  | c :: cs => runCmds (step s c) cs

/-- Scheduler work remaining in a queue entry. -/
def pendingCost : Pending → Nat
  | .greeting gen => 2 + (match gen with | .ok r => r.chunks.length + 1 | .error _ => 0)
  | .turn _ _ _ _ => 1

/-- Scheduler work remaining in the running task. -/
def statusCost : Status → Nat
  | .idle => 0
  | .greetWaiting _ gen => 1 + (match gen with | .ok r => r.chunks.length + 1 | .error _ => 0)
  | .greetStreaming _ pending _ => pending.length + 1

/-- Total scheduler work left before the session quiesces. -/
def sysMeasure (s : Sys) : Nat :=
  statusCost s.status + (s.queue.map pendingCost).sum

/-- Run `n` scheduler ticks with no further inbound frames. -/
def drain (s : Sys) : Nat → Sys
  | 0 => s
  | n + 1 => drain (tickStep s) n

-- ── History well-formedness ──────────────────────────────────────────────────

/-- The name of the first `tool_call` part of a turn, if any. -/
def fnCallName (t : Turn) : Option String :=
  t.parts.findSome? fun p =>
    match p with
    | .functionCall n _ => some n
    | _ => none

/-- Whether a turn carries a `tool_result` part with the given name. -/
def hasToolResult (t : Turn) (n : String) : Bool :=
  t.parts.any fun p =>
    match p with
    | .functionResponse n' _ => n' == n
    | _ => false

/-- Adjacency condition of the history-consistency claim: consecutive
same-role turns are allowed only across a tool_call/tool_result bridge, and a
tool_call is always answered by a matching tool_result in the next turn. -/
def adjOk (t t' : Turn) : Prop :=
  (t.role = t'.role → ∃ n, fnCallName t = some n ∧ hasToolResult t' n = true) ∧
  (∀ n, fnCallName t = some n → hasToolResult t' n = true)

instance (t t' : Turn) : Decidable (adjOk t t') := by
  unfold adjOk
  infer_instance

/-- The history-consistency property as claimed: empty, or starts with a
`user` turn, satisfies the adjacency condition pairwise, and its last turn
leaves no tool_call unanswered. -/
def historyConsistent (h : List Turn) : Prop :=
  h = [] ∨
    ((∃ t rest, h = t :: rest ∧ t.role = .user) ∧
     List.Chain' adjOk h ∧
     (∀ t, h.getLast? = some t → fnCallName t = none))

/-- The committed shapes session history can take: blocks appended by clean
turns — a user/model text pair, or a user text, model tool_call, user
tool_result, model text quadruple. Rollbacks restore the previous shape. -/
inductive Committed : List Turn → Prop
  | nil : Committed []
  | plain (h : List Turn) (u m : String) :
      Committed h →
      Committed (h ++ [{ role := .user, parts := [.text u] },
                       { role := .model, parts := [.text m] }])
  | tool (h : List Turn) (u n : String) (a : List (String × String))
      (r : FnResult) (m : String) :
      Committed h →
      Committed (h ++ [{ role := .user, parts := [.text u] },
                       { role := .model, parts := [.functionCall n a] },
                       { role := .user, parts := [.functionResponse n r] },
                       { role := .model, parts := [.text m] }])

-- ── Task-level lemmas ────────────────────────────────────────────────────────

theorem runCatch_isGenerating (a c : Option Nat) (rid : Nat) (fs : List Frame)
    (hcur : List Turn) (cp : Nat) (e : GenErr) (st : Nat) :
    (runCatch a c rid fs hcur cp e st).isGenerating = false := by
  cases e <;> rfl

theorem runCatch_history (a c : Option Nat) (rid : Nat) (fs : List Frame)
    (hcur : List Turn) (cp : Nat) (e : GenErr) (st : Nat) :
    (runCatch a c rid fs hcur cp e st).history = hcur.take cp := by
  cases e <;> rfl

theorem runCatch_exit (a c : Option Nat) (rid : Nat) (fs : List Frame)
    (hcur : List Turn) (cp : Nat) (e : GenErr) (st : Nat) :
    (runCatch a c rid fs hcur cp e st).exit = .caughtAbort ∨
    (runCatch a c rid fs hcur cp e st).exit = .caughtProvider := by
  cases e
  · exact Or.inl rfl
  · exact Or.inr rfl

/-- Every exit of the turn task releases `isGenerating`. -/
theorem handleTranscript_isGenerating (env : TurnEnv) (sd : StoreData)
    (h0 : List Turn) (tr : List TranscriptEntry) (rid : Nat) :
    (handleTranscript env sd h0 tr rid).isGenerating = false := by
  simp only [handleTranscript]
  repeat' first
    | rfl
    | apply runCatch_isGenerating
    | split

/-- The turn task either leaves history exactly as it found it, or took one
of the two clean exits. -/
theorem handleTranscript_rollback_or_clean (env : TurnEnv) (sd : StoreData)
    (h0 : List Turn) (tr : List TranscriptEntry) (rid : Nat) :
    (handleTranscript env sd h0 tr rid).history = h0 ∨
    (handleTranscript env sd h0 tr rid).exit = .cleanText ∨
    (handleTranscript env sd h0 tr rid).exit = .cleanTool := by
  simp only [handleTranscript]
  repeat' split
  all_goals
    first
      | exact Or.inr (Or.inl rfl)
      | exact Or.inr (Or.inr rfl)
      | (left;
         first
           | rfl
           | (rw [runCatch_history]; simp [List.append_assoc, List.take_left])
           | simp [List.append_assoc, List.take_left])

/-- A clean turn appends a committed block; every other exit restores the
checkpoint. -/
theorem handleTranscript_committed (env : TurnEnv) (sd : StoreData)
    (h0 : List Turn) (tr : List TranscriptEntry) (rid : Nat)
    (hc : Committed h0) :
    Committed (handleTranscript env sd h0 tr rid).history := by
  simp only [handleTranscript]
  repeat' split
  all_goals
    first
      | exact hc
      | (show Committed ((h0 ++ _).take h0.length); rw [List.take_left]; exact hc)
      | (rw [runCatch_history]; simp only [List.append_assoc, List.take_left]; exact hc)
      | (simp only [List.append_assoc, List.take_left]; exact hc)
      | (simp only [List.append_assoc, List.singleton_append, List.cons_append, List.nil_append]
         first
           | exact Committed.plain h0 _ _ hc
           | exact Committed.tool h0 _ _ _ _ _ hc)

theorem adjOk_of_ne (t t' : Turn) (hr : ¬ t.role = t'.role)
    (hn : fnCallName t = none) : adjOk t t' := by
  constructor
  · intro h
    exact absurd h hr
  · intro n hcall
    rw [hn] at hcall
    cases hcall

theorem adjOk_of_bridge (t t' : Turn) (n : String) (hcall : fnCallName t = some n)
    (hres : hasToolResult t' n = true) : adjOk t t' := by
  constructor
  · intro _
    exact ⟨n, hcall, hres⟩
  · intro n' hn'
    rw [hcall] at hn'
    injection hn' with hnn
    subst hnn
    exact hres

theorem hasToolResult_self (r : Role) (n : String) (fr : FnResult) :
    hasToolResult { role := r, parts := [.functionResponse n fr] } n = true := by
  simp [hasToolResult]

/-- Structural facts about committed histories: the adjacency chain holds,
the last turn (if any) is a model text turn, and the first turn (if any) is
a user turn. -/
theorem committed_facts (h : List Turn) (hc : Committed h) :
    List.Chain' adjOk h ∧
    (∀ t, h.getLast? = some t → t.role = .model ∧ fnCallName t = none) ∧
    (∀ t rest, h = t :: rest → t.role = .user) := by
  induction hc with
  | nil =>
      refine ⟨List.chain'_nil, ?_, ?_⟩
      · intro t ht
        simp at ht
      · intro t rest ht
        cases ht
  | plain h u m hc ih =>
      obtain ⟨ih1, ih2, ih3⟩ := ih
      refine ⟨?_, ?_, ?_⟩
      · refine List.chain'_append.mpr ⟨ih1, ?_, ?_⟩
        · refine List.chain'_cons.mpr ⟨?_, List.chain'_singleton _⟩
          exact adjOk_of_ne _ _ (by simp) rfl
        · intro x hx y hy
          simp only [List.head?_cons, Option.mem_def, Option.some.injEq] at hy
          subst hy
          obtain ⟨hrole, hcall⟩ := ih2 x (Option.mem_def.mp hx)
          refine adjOk_of_ne _ _ ?_ hcall
          rw [hrole]
          simp
      · intro t ht
        have hlast : (h ++ ([{ role := Role.user, parts := [Part.text u] },
            { role := Role.model, parts := [Part.text m] }] : List Turn)).getLast? =
            some ({ role := Role.model, parts := [Part.text m] } : Turn) := by
          rw [List.getLast?_append]
          rfl
        rw [hlast] at ht
        injection ht with ht
        subst ht
        exact ⟨rfl, rfl⟩
      · intro t rest ht
        cases h with
        | nil =>
            simp only [List.nil_append, List.cons.injEq] at ht
            rw [← ht.1]
        | cons a h' =>
            simp only [List.cons_append, List.cons.injEq] at ht
            rw [← ht.1]
            exact ih3 a h' rfl
  | tool h u n a r m hc ih =>
      obtain ⟨ih1, ih2, ih3⟩ := ih
      refine ⟨?_, ?_, ?_⟩
      · refine List.chain'_append.mpr ⟨ih1, ?_, ?_⟩
        · refine List.chain'_cons.mpr ⟨?_, ?_⟩
          · exact adjOk_of_ne _ _ (by simp) rfl
          refine List.chain'_cons.mpr ⟨?_, ?_⟩
          · exact adjOk_of_bridge _ _ n rfl (hasToolResult_self _ _ _)
          refine List.chain'_cons.mpr ⟨?_, List.chain'_singleton _⟩
          exact adjOk_of_ne _ _ (by simp) rfl
        · intro x hx y hy
          simp only [List.head?_cons, Option.mem_def, Option.some.injEq] at hy
          subst hy
          obtain ⟨hrole, hcall⟩ := ih2 x (Option.mem_def.mp hx)
          refine adjOk_of_ne _ _ ?_ hcall
          rw [hrole]
          simp
      · intro t ht
        have hlast : (h ++ ([{ role := Role.user, parts := [Part.text u] },
            { role := Role.model, parts := [Part.functionCall n a] },
            { role := Role.user, parts := [Part.functionResponse n r] },
            { role := Role.model, parts := [Part.text m] }] : List Turn)).getLast? =
            some ({ role := Role.model, parts := [Part.text m] } : Turn) := by
          rw [List.getLast?_append]
          rfl
        rw [hlast] at ht
        injection ht with ht
        subst ht
        exact ⟨rfl, rfl⟩
      · intro t rest ht
        cases h with
        | nil =>
            simp only [List.nil_append, List.cons.injEq] at ht
            rw [← ht.1]
        | cons a h' =>
            simp only [List.cons_append, List.cons.injEq] at ht
            rw [← ht.1]
            exact ih3 a h' rfl

/-- Committed histories satisfy the claimed consistency property. -/
theorem committed_historyConsistent (h : List Turn) (hc : Committed h) :
    historyConsistent h := by
  obtain ⟨h1, h2, h3⟩ := committed_facts h hc
  cases h with
  | nil => exact Or.inl rfl
  | cons t rest =>
      refine Or.inr ⟨⟨t, rest, rfl, h3 t rest rfl⟩, h1, ?_⟩
      intro x hx
      exact (h2 x hx).2

-- ── System invariants ────────────────────────────────────────────────────────

/-- Invariant of reachable session states: the lock is free whenever no task
is running, the history is in committed shape, a held lock implies a live
controller, and controller ids are always below the allocator. -/
def SysInv (s : Sys) : Prop :=
  (s.status = .idle → s.isGenerating = false) ∧
  Committed s.history ∧
  (s.isGenerating = true → s.controller ≠ none) ∧
  (∀ c, s.controller = some c → c < s.nextId)

theorem handleUpdateOnly_fields (s : Sys) (tt : Option String) :
    (handleUpdateOnly s tt).status = s.status ∧
    (handleUpdateOnly s tt).isGenerating = s.isGenerating ∧
    (handleUpdateOnly s tt).history = s.history ∧
    (handleUpdateOnly s tt).controller = s.controller ∧
    (handleUpdateOnly s tt).nextId = s.nextId ∧
    (handleUpdateOnly s tt).queue = s.queue ∧
    (handleUpdateOnly s tt).out = s.out := by
  unfold handleUpdateOnly
  repeat' split
  all_goals simp

theorem sysInv_updateOnly (s : Sys) (tt : Option String) (h : SysInv s) :
    SysInv (handleUpdateOnly s tt) := by
  obtain ⟨f1, f2, f3, f4, f5, f6, f7⟩ := handleUpdateOnly_fields s tt
  unfold SysInv at h ⊢
  rw [f1, f2, f3, f4, f5]
  exact h

theorem sysInv_responseRequired (s : Sys) (rid : Nat) (tr : List TranscriptEntry)
    (env : TurnEnv) (h : SysInv s) : SysInv (handleResponseRequired s rid tr env) := by
  obtain ⟨h1, h2, h3, h4⟩ := h
  refine ⟨h1, h2, ?_, ?_⟩
  · intro _
    simp [handleResponseRequired]
  · intro c hc
    simp only [handleResponseRequired, Option.some.injEq] at hc
    simp [handleResponseRequired, ← hc]

theorem runTurnTask_frame (s : Sys) (cid rid : Nat) (tr : List TranscriptEntry)
    (env : TurnEnv) :
    (runTurnTask s cid rid tr env).status = s.status ∧
    (runTurnTask s cid rid tr env).queue = s.queue ∧
    (runTurnTask s cid rid tr env).controller = s.controller ∧
    (runTurnTask s cid rid tr env).nextId = s.nextId := by
  unfold runTurnTask
  split <;> simp

theorem sysInv_tick (s : Sys) (h : SysInv s) : SysInv (tickStep s) := by
  obtain ⟨h1, h2, h3, h4⟩ := h
  unfold tickStep
  split
  case _ cid gen heq =>
    split
    · exact ⟨fun _ => rfl, h2, by simp, h4⟩
    · split
      · exact ⟨fun _ => rfl, h2, by simp, h4⟩
      · exact ⟨fun _ => rfl, h2, by simp, h4⟩
      · exact ⟨by simp, h2, h3, h4⟩
  case _ cid pending serr heq =>
    split
    · exact ⟨fun _ => rfl, h2, by simp, h4⟩
    · split
      · exact ⟨by simp, h2, h3, h4⟩
      · split
        · exact ⟨fun _ => rfl, h2, by simp, h4⟩
        · exact ⟨fun _ => rfl, h2, by simp, h4⟩
        · exact ⟨fun _ => rfl, h2, by simp, h4⟩
  case _ heq =>
    split
    case _ hq => exact ⟨h1, h2, h3, h4⟩
    case _ gen rest hq =>
      refine ⟨by simp, h2, ?_, ?_⟩
      · intro _
        simp
      · intro c hc
        simp only [Option.some.injEq] at hc
        simp [← hc]
    case _ cid rid tr env rest hq =>
      unfold runTurnTask
      split
      · dsimp only
        refine ⟨fun _ => handleTranscript_isGenerating _ _ _ _ _, ?_, ?_, ?_⟩
        · exact handleTranscript_committed _ _ _ _ _ h2
        · rw [handleTranscript_isGenerating]
          intro hx
          cases hx
        · exact h4
      · exact ⟨fun _ => h1 heq, h2, fun hx => h3 hx, h4⟩

theorem sysInv_step (s : Sys) (c : Cmd) (h : SysInv s) : SysInv (step s c) := by
  cases c with
  | tick => exact sysInv_tick s h
  | deliver e =>
      cases e with
      | updateOnly tt => exact sysInv_updateOnly s tt h
      | responseRequired rid tr env => exact sysInv_responseRequired s rid tr env h
      | other => exact h

theorem sysInv_runCmds (s : Sys) (cs : List Cmd) (h : SysInv s) :
    SysInv (runCmds s cs) := by
  induction cs generalizing s with
  | nil => exact h
  | cons c cs ih => exact ih _ (sysInv_step s c h)

theorem sysInv_initSys (store : StoreData) (gg : Except GenErr StreamResult) :
    SysInv (initSys store gg) := by
  refine ⟨fun _ => rfl, Committed.nil, ?_, ?_⟩
  · intro hx
    cases hx
  · intro c hc
    cases hc

theorem sysInv_drain (s : Sys) (n : Nat) (h : SysInv s) : SysInv (drain s n) := by
  induction n generalizing s with
  | zero => exact h
  | succ n ih => exact ih _ (sysInv_tick s h)

-- ── Quiescence ───────────────────────────────────────────────────────────────

theorem pendingCost_pos (p : Pending) : 1 ≤ pendingCost p := by
  cases p with
  | greeting gen =>
      cases gen <;> simp only [pendingCost] <;> omega
  | turn cid rid tr env => simp [pendingCost]

theorem statusCost_eq_zero (st : Status) (h : statusCost st = 0) : st = .idle := by
  cases st with
  | idle => rfl
  | greetWaiting cid gen => simp [statusCost] at h
  | greetStreaming cid pending serr => simp [statusCost] at h

theorem sysMeasure_zero (s : Sys) (h : sysMeasure s = 0) :
    s.status = .idle ∧ s.queue = [] := by
  unfold sysMeasure at h
  have hst : statusCost s.status = 0 := by omega
  have hq : (s.queue.map pendingCost).sum = 0 := by omega
  refine ⟨statusCost_eq_zero _ hst, ?_⟩
  cases hql : s.queue with
  | nil => rfl
  | cons p q =>
      rw [hql] at hq
      simp only [List.map_cons, List.sum_cons] at hq
      have := pendingCost_pos p
      omega

theorem runTurnTask_measure (s : Sys) (cid rid : Nat) (tr : List TranscriptEntry)
    (env : TurnEnv) : sysMeasure (runTurnTask s cid rid tr env) = sysMeasure s := by
  obtain ⟨hs, hq, _, _⟩ := runTurnTask_frame s cid rid tr env
  unfold sysMeasure
  rw [hs, hq]

theorem tickStep_measure (s : Sys) (h : ¬ (s.status = .idle ∧ s.queue = [])) :
    sysMeasure (tickStep s) < sysMeasure s := by
  unfold tickStep
  split
  case _ cid gen heq =>
    split
    · simp [sysMeasure, statusCost, heq]
    · split <;> simp_all [sysMeasure, statusCost]
  case _ cid pending serr heq =>
    split
    · simp [sysMeasure, statusCost, heq]
    · split
      · simp_all [sysMeasure, statusCost]
      · split <;> simp_all [sysMeasure, statusCost]
  case _ heq =>
    split
    case _ hq => exact absurd ⟨heq, hq⟩ h
    case _ gen rest hq =>
      simp [sysMeasure, statusCost, pendingCost, heq, hq]
    case _ cid rid tr env rest hq =>
      rw [runTurnTask_measure]
      simp [sysMeasure, statusCost, pendingCost, heq, hq]

theorem tickStep_fix (s : Sys) (h1 : s.status = .idle) (h2 : s.queue = []) :
    tickStep s = s := by
  simp only [tickStep, h1, h2]

theorem drain_quiesces : ∀ (n : Nat) (s : Sys), sysMeasure s ≤ n →
    (drain s n).status = .idle ∧ (drain s n).queue = [] := by
  intro n
  induction n with
  | zero =>
      intro s hs
      exact sysMeasure_zero s (Nat.le_zero.mp hs)
  | succ n ih =>
      intro s hs
      by_cases hdone : s.status = .idle ∧ s.queue = []
      · have hfix : tickStep s = s := tickStep_fix s hdone.1 hdone.2
        show (drain (tickStep s) n).status = _ ∧ (drain (tickStep s) n).queue = _
        rw [hfix]
        apply ih
        have hz : sysMeasure s = 0 := by
          unfold sysMeasure
          rw [hdone.1, hdone.2]
          rfl
        omega
      · have hdec := tickStep_measure s hdone
        show (drain (tickStep s) n).status = _ ∧ (drain (tickStep s) n).queue = _
        exact ih _ (by omega)

-- ── Concrete instances used by witnesses and counterexamples ─────────────────

/-- A store with a cached menu. -/
def storeEx : StoreData := { id := "store-1", menu_cache := some "BEEF: Bulgogi $18" }

/-- A store whose menu cache is missing. -/
def storeNoMenuEx : StoreData := { id := "store-2", menu_cache := none }

/-- First greeting chunk. -/
def chunkA : Chunk := { parts := [.text "Hi "] }

/-- Second greeting chunk. -/
def chunkB : Chunk := { parts := [.text "there!"] }

/-- Greeting stream: two text chunks, no error. -/
def greetGenEx : Except GenErr StreamResult :=
  .ok { chunks := [chunkA, chunkB], streamErr := none, terminalParts := [] }

/-- A one-entry transcript with a user utterance. -/
def trEx : List TranscriptEntry := [{ role := "user", content := some "hello" }]

/-- Turn environment for a clean one-chunk text reply. -/
def envEx : TurnEnv :=
  { abortAt := none, closeAt := none,
    gen1 := .ok { chunks := [chunkA], streamErr := none, terminalParts := [.text "Hi "] },
    dbResult := none,
    gen2 := .ok { chunks := [], streamErr := none, terminalParts := [] } }

/-- Same turn but with the token tripped before the first call. -/
def envCancelEx : TurnEnv := { envEx with abortAt := some 0 }

/-- Turn environment whose first streaming call rejects with a provider error. -/
def envProviderErrEx : TurnEnv :=
  { abortAt := none, closeAt := none, gen1 := .error (.providerError "ECONNRESET"),
    dbResult := none, gen2 := .error (.providerError "ECONNRESET") }

/-- A session state mid-generation (controller 0 live, allocator at 1). -/
def sEx : Sys :=
  { store := storeEx, history := [], isGenerating := true, controller := some 0,
    aborted := [], nextId := 1, queue := [], status := .idle, out := [] }

/-- Ticks that start the greeting and stream its first chunk. -/
def cmdsBeforeRR : List Cmd := [.tick, .tick, .tick]

/-- Same, then a `response_required` frame arrives while the greeting streams. -/
def cmdsC6a : List Cmd := cmdsBeforeRR ++ [.deliver (.responseRequired 1 trEx envEx)]

/-- Same, then the greeting is allowed to keep running. -/
def cmdsC6b : List Cmd := cmdsC6a ++ [.tick, .tick]

/-- Greeting environment whose single streaming call rejects with a provider
error. -/
def greetEnvErrEx : GreetEnv :=
  { abortAt := none, closeAt := none, gen := .error (.providerError "boom") }

-- ── Claim theorems ───────────────────────────────────────────────────────────

/-- C1. Every execution path of a turn task (clean text completion, tool-call
completion, empty transcript, cancellation at any check, stream-primitive
failure, any tool-dispatcher result, and transport writes to a closed socket,
which `sendChunk` turns into silent no-ops) releases `is_generating`; hence
after any finite sequence of well-formed inbound frames the session drains to
a quiescent state with `is_generating = false` and an empty turn queue. -/
theorem freeze_freedom (store : StoreData) (greetGen : Except GenErr StreamResult)
    (cmds : List Cmd) (env : TurnEnv) (sd : StoreData) (h0 : List Turn)
    (tr : List TranscriptEntry) (rid : Nat) :
    (handleTranscript env sd h0 tr rid).isGenerating = false ∧
    (drain (runCmds (initSys store greetGen) cmds)
      (sysMeasure (runCmds (initSys store greetGen) cmds))).isGenerating = false ∧
    (drain (runCmds (initSys store greetGen) cmds)
      (sysMeasure (runCmds (initSys store greetGen) cmds))).queue = [] ∧
    (drain (runCmds (initSys store greetGen) cmds)
      (sysMeasure (runCmds (initSys store greetGen) cmds))).status = .idle := by
  have hq := drain_quiesces (sysMeasure (runCmds (initSys store greetGen) cmds))
    (runCmds (initSys store greetGen) cmds) (le_refl _)
  have hinv := sysInv_drain (runCmds (initSys store greetGen) cmds)
    (sysMeasure (runCmds (initSys store greetGen) cmds))
    (sysInv_runCmds (initSys store greetGen) cmds (sysInv_initSys store greetGen))
  exact ⟨handleTranscript_isGenerating env sd h0 tr rid, hinv.1 hq.1, hq.2, hq.1⟩

/-- C2. If a turn task exits via cancellation (token tripped at any check
point) or via any error thrown during the turn, the history it leaves behind
has exactly the length recorded at the checkpoint (the pre-turn length): no
partial commit survives. -/
theorem rollback_atomicity (env : TurnEnv) (sd : StoreData) (h0 : List Turn)
    (tr : List TranscriptEntry) (rid : Nat)
    (hexit : (handleTranscript env sd h0 tr rid).exit = .cancelledCheck ∨
             (handleTranscript env sd h0 tr rid).exit = .caughtAbort ∨
             (handleTranscript env sd h0 tr rid).exit = .caughtProvider) :
    (handleTranscript env sd h0 tr rid).history.length = h0.length := by
  rcases handleTranscript_rollback_or_clean env sd h0 tr rid with h | h | h
  · rw [h]
  · rcases hexit with h' | h' | h' <;> rw [h] at h' <;> simp at h'
  · rcases hexit with h' | h' | h' <;> rw [h] at h' <;> simp at h'

/-- Witness for C2: a token tripped before the first call rolls the history
back to its pre-turn length. -/
theorem rollback_atomicity_witness :
    (handleTranscript envCancelEx storeEx [] trEx 4).history.length = 0 :=
  rollback_atomicity envCancelEx storeEx [] trEx 4 (Or.inr (Or.inl (by decide)))

/-- C3. After any sequence of inbound frames, the session history is either
empty or an alternating sequence beginning with a user turn, with same-role
adjacency only across a tool_call/tool_result bridge, and every tool_call
part is answered in the next turn by a tool_result part of the same name. -/
theorem history_consistency (store : StoreData) (greetGen : Except GenErr StreamResult)
    (cmds : List Cmd) :
    historyConsistent (runCmds (initSys store greetGen) cmds).history :=
  committed_historyConsistent _
    ((sysInv_runCmds (initSys store greetGen) cmds (sysInv_initSys store greetGen)).2.1)

/-- C4. The `update_only` handler calls `cancel()` on the current token if and
only if `is_generating` is true and the frame's `turntaking` equals the exact
string `user_turn` (in reachable states the live-lock hypothesis holds, see
`SysInv`); in every case it leaves `current_token`, `history`, the turn queue
and the outbound stream unchanged. -/
theorem update_only_barge_in_iff (s : Sys) (turntaking : Option String)
    (hlive : s.isGenerating = true → s.controller ≠ none) :
    ((handleUpdateOnly s turntaking).aborted ≠ s.aborted ↔
      (s.isGenerating = true ∧ turntaking = some "user_turn")) ∧
    (∀ cid, s.controller = some cid → s.isGenerating = true →
      turntaking = some "user_turn" →
      (handleUpdateOnly s turntaking).aborted = cid :: s.aborted) ∧
    (handleUpdateOnly s turntaking).controller = s.controller ∧
    (handleUpdateOnly s turntaking).history = s.history ∧
    (handleUpdateOnly s turntaking).queue = s.queue ∧
    (handleUpdateOnly s turntaking).out = s.out := by
  unfold handleUpdateOnly
  split
  case _ cid hc =>
    split
    case _ hcond =>
      rw [Bool.and_eq_true, beq_iff_eq] at hcond
      refine ⟨⟨fun _ => ⟨hcond.1, hcond.2⟩, fun _ => List.cons_ne_self _ _⟩,
        ?_, rfl, rfl, rfl, rfl⟩
      intro cid' hcid' _ _
      rw [hc] at hcid'
      injection hcid' with hid
      subst hid
      rfl
    case _ hcond =>
      simp only [Bool.and_eq_true, beq_iff_eq] at hcond
      refine ⟨⟨fun hne => absurd rfl hne, fun hrhs => absurd hrhs hcond⟩,
        ?_, rfl, rfl, rfl, rfl⟩
      intro cid' hcid' hg ht
      exact absurd ⟨hg, ht⟩ hcond
  case _ hc =>
    refine ⟨⟨fun hne => absurd rfl hne, ?_⟩, ?_, rfl, rfl, rfl, rfl⟩
    · rintro ⟨hg, _⟩
      exact absurd hc (hlive hg)
    · intro cid' hcid' hg ht
      rw [hc] at hcid'
      exact Option.noConfusion hcid'

/-- Witness for C4: a genuine barge-in during generation cancels controller 0
and changes nothing else. -/
theorem update_only_barge_in_iff_witness :
    ((handleUpdateOnly sEx (some "user_turn")).aborted ≠ sEx.aborted ↔
      (sEx.isGenerating = true ∧ (some "user_turn" : Option String) = some "user_turn")) ∧
    (∀ cid, sEx.controller = some cid → sEx.isGenerating = true →
      (some "user_turn" : Option String) = some "user_turn" →
      (handleUpdateOnly sEx (some "user_turn")).aborted = cid :: sEx.aborted) ∧
    (handleUpdateOnly sEx (some "user_turn")).controller = sEx.controller ∧
    (handleUpdateOnly sEx (some "user_turn")).history = sEx.history ∧
    (handleUpdateOnly sEx (some "user_turn")).queue = sEx.queue ∧
    (handleUpdateOnly sEx (some "user_turn")).out = sEx.out :=
  update_only_barge_in_iff sEx (some "user_turn") (by decide)

/-- C5. The `response_required` handler cancels nothing: it allocates a fresh
controller (distinct from the current one), overwrites `current_token`,
advances the allocator, and appends a turn task closed over the new id; and a
turn task whose controller has been superseded returns immediately without
touching the session. -/
theorem response_required_start_trigger (s : Sys) (rid : Nat)
    (tr : List TranscriptEntry) (env : TurnEnv)
    (hfresh : ∀ c, s.controller = some c → c < s.nextId) :
    (handleResponseRequired s rid tr env).aborted = s.aborted ∧
    (handleResponseRequired s rid tr env).controller = some s.nextId ∧
    (handleResponseRequired s rid tr env).controller ≠ s.controller ∧
    (handleResponseRequired s rid tr env).nextId = s.nextId + 1 ∧
    (handleResponseRequired s rid tr env).queue = s.queue ++ [.turn s.nextId rid tr env] ∧
    (handleResponseRequired s rid tr env).history = s.history ∧
    (handleResponseRequired s rid tr env).out = s.out ∧
    (∀ s' : Sys, s'.controller ≠ some s.nextId →
      runTurnTask s' s.nextId rid tr env = s') := by
  refine ⟨rfl, rfl, ?_, rfl, rfl, rfl, rfl, ?_⟩
  · intro hceq
    rcases hcc : s.controller with _ | c
    · rw [hcc] at hceq
      exact Option.noConfusion hceq
    · rw [hcc] at hceq
      injection hceq with hx
      have := hfresh c hcc
      omega
  · intro s' hne
    have hb : (s'.controller == some s.nextId) = false := beq_eq_false_iff_ne.mpr hne
    simp [runTurnTask, hb]

/-- Witness for C5: applied to a session whose live controller is 0 with the
allocator at 1; the stale-skip conjunct is then instantiated at a session
holding a different controller. -/
theorem response_required_start_trigger_witness :
    runTurnTask sEx sEx.nextId 9 trEx envEx = sEx :=
  (response_required_start_trigger sEx 9 trEx envEx
    (fun c hc => by
      injection (show some 0 = some c from hc) with h
      subst h
      decide)).2.2.2.2.2.2.2 sEx (by decide)

/-- C6 (counterexample evaluation). The greeting is started and streams its
first chunk; a `response_required` frame then arrives (the session is in
`greetStreaming`), yet the greeting keeps emitting `response_id = 0` frames —
a partial chunk and the final frame — because the `response_required` handler
never aborts any controller. History stays empty. -/
theorem greeting_outlives_early_response_required :
    (runCmds (initSys storeEx greetGenEx) cmdsC6a).status =
      .greetStreaming 0 [chunkB] none ∧
    (runCmds (initSys storeEx greetGenEx) cmdsC6a).out =
      [{ responseId := 0, content := "Hi ", contentComplete := false, endCall := false }] ∧
    (runCmds (initSys storeEx greetGenEx) cmdsC6b).out =
      [{ responseId := 0, content := "Hi ", contentComplete := false, endCall := false },
       { responseId := 0, content := "there!", contentComplete := false, endCall := false },
       { responseId := 0, content := "", contentComplete := true, endCall := false }] ∧
    (runCmds (initSys storeEx greetGenEx) cmdsC6b).history = [] := by
  decide

/-- C7. The cancellable stream primitive fails fast when the token is already
tripped, fails with the same `AbortError` tag when the token trips during the
initial wait, and fails with the (equally tagged) timeout error when the
provider does not settle within the window; the default window is 15000 ms. -/
theorem generateWithAbort_failure_modes :
    (∀ (abortAt : Option Nat) (provider : ProviderEvent) (timeoutMs : Nat),
      generateWithAbort true abortAt provider timeoutMs =
        .error (.abortError "Aborted before Gemini call (Gemini 호출 전 이미 중단됨)")) ∧
    (∀ (a : Nat) (provider : ProviderEvent) (timeoutMs : Nat),
      a ≤ timeoutMs → (∀ t, firstEventTime provider = some t → a ≤ t) →
      generateWithAbort false (some a) provider timeoutMs =
        .error (.abortError "Aborted during Gemini call (Gemini 호출 중 중단됨)")) ∧
    (∀ (abortAt : Option Nat) (provider : ProviderEvent) (timeoutMs : Nat),
      (∀ t, firstEventTime provider = some t → timeoutMs < t) →
      (∀ a, abortAt = some a → timeoutMs < a) →
      generateWithAbort false abortAt provider timeoutMs =
        .error (.abortError (timeoutMessage timeoutMs))) ∧
    GEMINI_TIMEOUT_MS = 15000 ∧
    (GenErr.abortError "Aborted during Gemini call (Gemini 호출 중 중단됨)").errTag =
      (GenErr.abortError (timeoutMessage GEMINI_TIMEOUT_MS)).errTag := by
  refine ⟨fun _ _ _ => rfl, ?_, ?_, rfl, rfl⟩
  · intro a provider timeoutMs hto hpr
    cases provider with
    | respondsAt t r =>
        have hat : a ≤ t := hpr t rfl
        simp [generateWithAbort, firstEventTime, hto, hat]
    | failsAt t m =>
        have hat : a ≤ t := hpr t rfl
        simp [generateWithAbort, firstEventTime, hto, hat]
    | never =>
        simp [generateWithAbort, firstEventTime, hto]
  · intro abortAt provider timeoutMs hprov hab
    cases provider with
    | respondsAt t r =>
        have h1 : ¬ t ≤ timeoutMs := Nat.not_le.mpr (hprov t rfl)
        rcases abortAt with _ | a
        · simp [generateWithAbort, firstEventTime, h1]
        · have h2 : ¬ a ≤ timeoutMs := Nat.not_le.mpr (hab a rfl)
          simp [generateWithAbort, firstEventTime, h1, h2]
    | failsAt t m =>
        have h1 : ¬ t ≤ timeoutMs := Nat.not_le.mpr (hprov t rfl)
        rcases abortAt with _ | a
        · simp [generateWithAbort, firstEventTime, h1]
        · have h2 : ¬ a ≤ timeoutMs := Nat.not_le.mpr (hab a rfl)
          simp [generateWithAbort, firstEventTime, h1, h2]
    | never =>
        rcases abortAt with _ | a
        · simp [generateWithAbort, firstEventTime]
        · have h2 : ¬ a ≤ timeoutMs := Nat.not_le.mpr (hab a rfl)
          simp [generateWithAbort, firstEventTime, h2]

/-- C8 (counterexample). A provider error on a live token and an open socket
makes the turn task emit exactly one final apology frame, but its text is
"I'm sorry, I had a little trouble. Could you please say that again?" — not
the text the claim states. -/
theorem apology_text_counterexample :
    (handleTranscript envProviderErrEx storeEx [] trEx 7).frames =
      [{ responseId := 7,
         content := "I'm sorry, I had a little trouble. Could you please say that again?",
         contentComplete := true, endCall := false }] ∧
    "I'm sorry, I had a little trouble. Could you please say that again?" ≠
      "I'm sorry, could you please say that again?" := by
  decide

/-- C8 (amended). The catch block every turn-task failure routes through:
an `AbortError`-tagged failure (cancellation and timeout share that tag)
appends no frame after the failure; any other error appends exactly one final
apology frame — with the text `apologyText` — if and only if the token is not
tripped and the socket is open. -/
theorem error_frame_policy (abortAt closeAt : Option Nat) (rid : Nat)
    (fs : List Frame) (hcur : List Turn) (cp : Nat) (m : String) (st : Nat) :
    (runCatch abortAt closeAt rid fs hcur cp (.abortError m) st).frames = fs ∧
    (runCatch abortAt closeAt rid fs hcur cp (.providerError m) st).frames =
      fs ++ (if !tripped abortAt st && socketOpenAt closeAt st then
        [{ responseId := rid, content := apologyText,
           contentComplete := true, endCall := false }]
      else []) ∧
    (GenErr.abortError m).errTag = "AbortError" :=
  ⟨rfl, rfl, rfl⟩

/-- C9 (counterexample). With the menu cache missing, `get_menu` returns
`{ menu: "Menu information is currently unavailable." }`, not
`{ menu: "unavailable" }`. -/
theorem get_menu_fallback_counterexample :
    executeFunctionCall "get_menu" [] storeNoMenuEx none =
      .menuResult "Menu information is currently unavailable." ∧
    FnResult.menuResult "Menu information is currently unavailable." ≠
      FnResult.menuResult "unavailable" := by
  decide

/-- C9 (amended). `get_menu` returns the tenant's cached menu text when the
cache is present and the fixed fallback text when it is missing, and its
result is independent of the database outcome (the only I/O channel the
dispatcher has). -/
theorem get_menu_spec (fnArgs : List (String × String)) (sd : StoreData)
    (dbResult : Option String) :
    executeFunctionCall "get_menu" fnArgs sd dbResult =
      .menuResult (sd.menu_cache.getD "Menu information is currently unavailable.") ∧
    (∀ db' : Option String,
      executeFunctionCall "get_menu" fnArgs sd db' =
        executeFunctionCall "get_menu" fnArgs sd dbResult) :=
  ⟨rfl, fun _ => rfl⟩

/-- Partial frames emitted by a streaming loop never carry
`content_complete = true`. -/
theorem chunkLoop_no_final (abortAt closeAt : Option Nat) (rid : Nat) :
    ∀ (chunks : List Chunk) (serr : Option GenErr) (st : Nat) (acc : String)
      (fs : List Frame),
    (chunkLoop abortAt closeAt rid chunks serr st acc fs).frames.filter
        (fun f => f.contentComplete) =
      fs.filter (fun f => f.contentComplete) := by
  intro chunks
  induction chunks with
  | nil =>
      intro serr st acc fs
      rfl
  | cons c rest ih =>
      intro serr st acc fs
      unfold chunkLoop
      split
      · rfl
      · dsimp only
        split
        · exact ih serr (st + 1) acc fs
        · rw [ih]
          cases hso : socketOpenAt closeAt st <;>
            simp [sendChunk, hso, List.filter_append]

/-- C10. If the greeting task fails with any non-abort error, it emits — with
no check of the token's state, only the socket-open guard — exactly one final
frame with `response_id = 0` carrying the static fallback text, leaves the
history untouched (the greeting never writes to it, so an empty history stays
empty), and still releases `is_generating`. -/
theorem greeting_error_fallback (env : GreetEnv) (h0 : List Turn)
    (hopen : env.closeAt = none)
    (hexit : (handleGreeting env h0).exit = .caughtProvider) :
    (handleGreeting env h0).frames.filter (fun f => f.contentComplete) =
      [{ responseId := 0, content := greetingFallbackText,
         contentComplete := true, endCall := false }] ∧
    (handleGreeting env h0).frames.getLast? =
      some { responseId := 0, content := greetingFallbackText,
             contentComplete := true, endCall := false } ∧
    (handleGreeting env h0).history = h0 ∧
    (handleGreeting env h0).isGenerating = false := by
  unfold handleGreeting at hexit ⊢
  split at hexit
  next m heq =>
    simp at hexit
  next m heq =>
    rw [hopen]
    exact ⟨rfl, rfl, rfl, rfl⟩
  next r heq =>
    dsimp only at hexit ⊢
    rcases hLerr : (chunkLoop env.abortAt env.closeAt 0 r.chunks r.streamErr 1 "" []).err
      with _ | e
    · rw [hLerr] at hexit
      dsimp only at hexit
      split at hexit <;> simp at hexit
    · rw [hLerr] at hexit
      cases e with
      | abortError m => simp at hexit
      | providerError m =>
          dsimp only at hexit ⊢
          rw [hopen]
          refine ⟨?_, ?_, rfl, rfl⟩
          · rw [List.filter_append, chunkLoop_no_final]
            rfl
          · exact List.getLast?_concat _

/-- Witness for C10: a greeting whose call fails with a provider error on an
open socket emits the single static fallback final frame. -/
theorem greeting_error_fallback_witness :
    (handleGreeting greetEnvErrEx []).frames.filter (fun f => f.contentComplete) =
      [{ responseId := 0, content := greetingFallbackText,
         contentComplete := true, endCall := false }] ∧
    (handleGreeting greetEnvErrEx []).frames.getLast? =
      some { responseId := 0, content := greetingFallbackText,
             contentComplete := true, endCall := false } ∧
    (handleGreeting greetEnvErrEx []).history = [] ∧
    (handleGreeting greetEnvErrEx []).isGenerating = false :=
  greeting_error_fallback greetEnvErrEx [] rfl (by decide)

end LlmServer
